import Mathlib

/-!
Shallow embedding of `synapse/rest/media/v1/thumbnailer.py`.

The Python module wraps a PIL image in a `Thumbnailer` object that
  * resolves the EXIF orientation tag to a pending transpose operation at
    construction time (swallowing any EXIF parsing error),
  * applies the pending transpose at most once (`transpose`),
  * computes aspect-preserving "fit" geometry (`aspect`),
  * produces scaled (`scale`) and scaled-then-center-cropped (`crop`)
    encoded variants, failing on unsupported output formats.

Python integers are modelled by `Int`, and Python floor division `//` by
`Int.fdiv` (floor division).  PIL is external to the repository; of it we
model exactly the documented contracts the code relies on: `transpose`
produces a raster with the transposed dimensions and remapped pixels,
`resize((w, h))` produces a raster of size exactly `(w, h)` (the ANTIALIAS
resampled pixel values are abstracted, no theorem depends on them), and
`crop((l, t, r, b))` produces a raster of size `(r - l, b - t)` whose pixel
`(x, y)` is the source pixel `(l + x, t + y)`.  A raised Python exception is
modelled by `Except.error`.
-/

/-- The seven PIL transpose constants used by `EXIF_TRANSPOSE_MAPPINGS`. -/
inductive TransposeMethod where
  | flipLeftRight
  | rotate180
  | flipTopBottom
  | transposeDiag
  | rotate270
  | transverse
  | rotate90
  deriving DecidableEq, Repr

/-- A PIL raster: pixel dimensions, a pixel map, the raw EXIF blob held in
`image.info` (set to `none` by `transpose`), and the outcome of calling
`image._getexif()` — either a raised exception (`Except.error`), no EXIF
(`Except.ok none`), or a parsed tag dictionary (`Except.ok (some dict)`). -/
structure PILImage where
  width : Int
  height : Int
  pix : Int → Int → Int
  exifBytes : Option (List Int)
  getexifResult : Except String (Option (List (Int × Int)))

/-- Python `dict.get` on an EXIF tag dictionary with integer keys. -/
def exifGet (l : List (Int × Int)) (k : Int) : Option Int :=
  match l with
  | [] => none
  | (a, b) :: rest => if a = k then some b else exifGet rest k

/-- `EXIF_ORIENTATION_TAG = 0x0112` from the source. -/
def EXIF_ORIENTATION_TAG : Int := 0x0112

/-- `EXIF_TRANSPOSE_MAPPINGS.get(image_orientation)` from the source: the
fixed dictionary `{2: FLIP_LEFT_RIGHT, 3: ROTATE_180, 4: FLIP_TOP_BOTTOM,
5: TRANSPOSE, 6: ROTATE_270, 7: TRANSVERSE, 8: ROTATE_90}` looked up with an
optional key (`dict.get(None)` returns `None`, as does any unmapped key). -/
def EXIF_TRANSPOSE_MAPPINGS_get (o : Option Int) : Option TransposeMethod :=
  match o with
  | none => none
  | some k =>
    if k = 2 then some .flipLeftRight
    else if k = 3 then some .rotate180
    else if k = 4 then some .flipTopBottom
    else if k = 5 then some .transposeDiag
    else if k = 6 then some .rotate270
    else if k = 7 then some .transverse
    else if k = 8 then some .rotate90
    else none

/-- PIL `image.transpose(method)`: the documented coordinate remappings.
`TRANSPOSE`, `ROTATE_270`, `TRANSVERSE` and `ROTATE_90` swap the dimensions;
the two flips and `ROTATE_180` keep them. -/
def transposeImage (m : TransposeMethod) (img : PILImage) : PILImage :=
  match m with
  | .flipLeftRight =>
    { img with pix := fun x y => img.pix (img.width - 1 - x) y }
  | .rotate180 =>
    { img with pix := fun x y => img.pix (img.width - 1 - x) (img.height - 1 - y) }
  | .flipTopBottom =>
    { img with pix := fun x y => img.pix x (img.height - 1 - y) }
  | .transposeDiag =>
    { img with width := img.height, height := img.width,
               pix := fun x y => img.pix y x }
  | .rotate270 =>
    { img with width := img.height, height := img.width,
               pix := fun x y => img.pix y (img.height - 1 - x) }
  | .transverse =>
    { img with width := img.height, height := img.width,
               pix := fun x y => img.pix (img.width - 1 - y) (img.height - 1 - x) }
  | .rotate90 =>
    { img with width := img.height, height := img.width,
               pix := fun x y => img.pix (img.width - 1 - y) x }

/-- PIL `image.resize((w, h), Image.ANTIALIAS)`: a raster of size exactly
`(w, h)`.  The ANTIALIAS-resampled pixel values are external library
behaviour and are abstracted to a constant; no theorem inspects them. -/
def resizeImage (img : PILImage) (w h : Int) : PILImage :=
  { img with width := w, height := h, pix := fun _ _ => 0 }

/-- PIL `image.crop((l, t, r, b))`: a raster of size `(r - l, b - t)` whose
pixel `(x, y)` is the source pixel `(l + x, t + y)`. -/
def cropImage (img : PILImage) (l t r b : Int) : PILImage :=
  { img with width := r - l, height := b - t,
             pix := fun x y => img.pix (l + x) (t + y) }

/-- The `Thumbnailer` instance state: the owned raster, the cached
`self.width`/`self.height`, and the pending `self.transpose_method`. -/
structure Thumbnailer where
  image : PILImage
  width : Int
  height : Int
  transpose_method : Option TransposeMethod

/-- `Thumbnailer.__init__` (minus the external decode `Image.open`): caches
the size and resolves the orientation tag.  The `try`/`except Exception`
around `_getexif` maps a raised exception to the no-transform state (the
exception is logged and swallowed), so construction is a total function. -/
def Thumbnailer.init (img : PILImage) : Thumbnailer :=
  let tm : Option TransposeMethod :=
    match img.getexifResult with
    | .error _ => none
    | .ok none => none
    | .ok (some image_exif) =>
      EXIF_TRANSPOSE_MAPPINGS_get (exifGet image_exif EXIF_ORIENTATION_TAG)
  { image := img, width := img.width, height := img.height,
    transpose_method := tm }

/-- `Thumbnailer.transpose`: if a transpose method is pending, apply it,
refresh the cached size, clear the pending method, and drop the EXIF blob
(`self.image.info["exif"] = None`); return `self.image.size`.  The Python
method mutates `self`; here it returns the new state alongside the result. -/
def Thumbnailer.transpose (t : Thumbnailer) : (Int × Int) × Thumbnailer :=
  match t.transpose_method with
  | some m =>
    let img := transposeImage m t.image
    let img := { img with exifBytes := none }
    ((img.width, img.height),
     { image := img, width := img.width, height := img.height,
       transpose_method := none })
  | none => ((t.image.width, t.image.height), t)

/-- `Thumbnailer.aspect(max_width, max_height)`: the largest size preserving
aspect ratio that fits in the given rectangle, by exact integer
arithmetic. -/
def Thumbnailer.aspect (t : Thumbnailer) (max_width max_height : Int) : Int × Int :=
  if max_width * t.height < max_height * t.width then
    (max_width, Int.fdiv (max_width * t.height) t.width)
  else
    (Int.fdiv (max_height * t.width) t.height, max_height)

/-- `Thumbnailer.FORMATS = {"image/jpeg": "JPEG", "image/png": "PNG"}`
accessed by subscript: `FORMATS[output_type]`, raising `KeyError` (modelled
as `Except.error output_type`) on any other key. -/
def FORMATS_subscript (output_type : String) : Except String String :=
  if output_type = "image/jpeg" then .ok "JPEG"
  else if output_type = "image/png" then .ok "PNG"
  else .error output_type

/-- The result of `output_image.save(buf, FORMATS[output_type], quality=80)`:
an encoded byte buffer, characterised by the chosen PIL format name, the
raster dimensions it serialises, and the quality factor. -/
structure EncodedImage where
  format : String
  width : Int
  height : Int
  quality : Int
  deriving DecidableEq, Repr

/-- `Thumbnailer._encode_image(output_image, output_type)`: look the output
type up in `FORMATS` (raising `KeyError` for an unsupported type, before any
encoding happens) and serialise the raster at quality 80. -/
def encode_image (output_image : PILImage) (output_type : String) :
    Except String EncodedImage :=
  match FORMATS_subscript output_type with
  | .error k => .error k
  | .ok fmt =>
    .ok { format := fmt, width := output_image.width,
          height := output_image.height, quality := 80 }

/-- `Thumbnailer.scale(width, height, output_type)`: resize to exactly the
given dimensions and encode. -/
def Thumbnailer.scale (t : Thumbnailer) (width height : Int)
    (output_type : String) : Except String EncodedImage :=
  encode_image (resizeImage t.image width height) output_type

/-- `Thumbnailer.crop(width, height, output_type)`: scale preserving aspect
to cover the target box, then crop the centred excess, then encode. -/
def Thumbnailer.crop (t : Thumbnailer) (width height : Int)
    (output_type : String) : Except String EncodedImage :=
  if width * t.height > height * t.width then
    let scaled_height := Int.fdiv (width * t.height) t.width
    let scaled_image := resizeImage t.image width scaled_height
    let crop_top := Int.fdiv (scaled_height - height) 2
    let crop_bottom := height + crop_top
    let cropped := cropImage scaled_image 0 crop_top width crop_bottom
    encode_image cropped output_type
  else
    let scaled_width := Int.fdiv (height * t.width) t.height
    let scaled_image := resizeImage t.image scaled_width height
    let crop_left := Int.fdiv (scaled_width - width) 2
    let crop_right := width + crop_left
    let cropped := cropImage scaled_image crop_left 0 crop_right height
    encode_image cropped output_type

/-- The intermediate geometry of `Thumbnailer.crop`: the size the source is
scaled to, and the crop box `(left, top, right, bottom)` then applied. -/
structure CropPlan where
  scaledWidth : Int
  scaledHeight : Int
  left : Int
  top : Int
  right : Int
  bottom : Int
  deriving DecidableEq, Repr

/-- The scaled size and crop box chosen by `Thumbnailer.crop` for a source
of size `(w_in, h_in)` and a target of size `(t_w, t_h)`; the same
arithmetic as `Thumbnailer.crop`, exposed so that theorems can speak about
the crop window ("fill" geometry, spec section 4.2). -/
def cropGeometry (w_in h_in t_w t_h : Int) : CropPlan :=
  if t_w * h_in > t_h * w_in then
    let scaled_height := Int.fdiv (t_w * h_in) w_in
    let crop_top := Int.fdiv (scaled_height - t_h) 2
    { scaledWidth := t_w, scaledHeight := scaled_height,
      left := 0, top := crop_top, right := t_w, bottom := t_h + crop_top }
  else
    let scaled_width := Int.fdiv (t_h * w_in) h_in
    let crop_left := Int.fdiv (scaled_width - t_w) 2
    { scaledWidth := scaled_width, scaledHeight := t_h,
      left := crop_left, top := 0, right := t_w + crop_left, bottom := t_h }

/-- A concrete 640×480 source raster with no EXIF, for the example
scenarios. -/
def img640 : PILImage :=
  { width := 640, height := 480, pix := fun _ _ => 0,
    exifBytes := none, getexifResult := .ok none }

/-- The thumbnailer built on the 640×480 source. -/
def thumb640 : Thumbnailer := Thumbnailer.init img640

/-- A concrete 100×50 source raster carrying EXIF orientation tag 6. -/
def img100x50tag6 : PILImage :=
  { width := 100, height := 50, pix := fun _ _ => 0,
    exifBytes := some [0],
    getexifResult := .ok (some [(EXIF_ORIENTATION_TAG, 6)]) }

/-- A concrete 640×480 source raster whose EXIF parsing raises. -/
def imgBadExif : PILImage :=
  { width := 640, height := 480, pix := fun _ _ => 0,
    exifBytes := some [0], getexifResult := .error "corrupt EXIF" }

/-! ## Helper lemmas -/

/-- Branch equation for `cropGeometry` when the vertical excess is cropped. -/
lemma cropGeometry_pos (w_in h_in t_w t_h : Int) (hbr : t_w * h_in > t_h * w_in) :
    cropGeometry w_in h_in t_w t_h =
      { scaledWidth := t_w, scaledHeight := Int.fdiv (t_w * h_in) w_in,
        left := 0, top := Int.fdiv (Int.fdiv (t_w * h_in) w_in - t_h) 2,
        right := t_w,
        bottom := t_h + Int.fdiv (Int.fdiv (t_w * h_in) w_in - t_h) 2 } := by
  unfold cropGeometry
  rw [if_pos hbr]

/-- Branch equation for `cropGeometry` when the horizontal excess is
cropped. -/
lemma cropGeometry_neg (w_in h_in t_w t_h : Int) (hbr : ¬ t_w * h_in > t_h * w_in) :
    cropGeometry w_in h_in t_w t_h =
      { scaledWidth := Int.fdiv (t_h * w_in) h_in, scaledHeight := t_h,
        left := Int.fdiv (Int.fdiv (t_h * w_in) h_in - t_w) 2, top := 0,
        right := t_w + Int.fdiv (Int.fdiv (t_h * w_in) h_in - t_w) 2,
        bottom := t_h } := by
  unfold cropGeometry
  rw [if_neg hbr]

/-- `crop` factors through the geometry plan computed by `cropGeometry`. -/
lemma crop_eq_plan (t : Thumbnailer) (w h : Int) (fmt : String) :
    t.crop w h fmt =
      encode_image
        (cropImage
          (resizeImage t.image (cropGeometry t.width t.height w h).scaledWidth
            (cropGeometry t.width t.height w h).scaledHeight)
          (cropGeometry t.width t.height w h).left
          (cropGeometry t.width t.height w h).top
          (cropGeometry t.width t.height w h).right
          (cropGeometry t.width t.height w h).bottom) fmt := by
  unfold Thumbnailer.crop cropGeometry
  by_cases hbr : w * t.height > h * t.width
  · rw [if_pos hbr, if_pos hbr]
  · rw [if_neg hbr, if_neg hbr]

/-- With a supported output type, `crop` succeeds and the encoded raster has
exactly the requested dimensions. -/
lemma crop_ok (t : Thumbnailer) (w h : Int) (f fmt : String)
    (hf : FORMATS_subscript fmt = .ok f) :
    t.crop w h fmt = .ok { format := f, width := w, height := h, quality := 80 } := by
  unfold Thumbnailer.crop
  by_cases hbr : w * t.height > h * t.width
  · rw [if_pos hbr]
    simp [encode_image, cropImage, resizeImage, hf]
  · rw [if_neg hbr]
    simp [encode_image, cropImage, resizeImage, hf]

/-! ## Claim theorems -/

/-- C1: for all positive `max_width`, `max_height` and every source with
positive width and height, `aspect(max_width, max_height)` returns
`(w_out, h_out)` with `w_out <= max_width`, `h_out <= max_height`, and at
least one of `w_out == max_width` or `h_out == max_height`. -/
theorem aspect_fits (t : Thumbnailer) (mw mh : Int)
    (hmw : 0 < mw) (hmh : 0 < mh) (hw : 0 < t.width) (hh : 0 < t.height) :
    (t.aspect mw mh).1 ≤ mw ∧ (t.aspect mw mh).2 ≤ mh ∧
      ((t.aspect mw mh).1 = mw ∨ (t.aspect mw mh).2 = mh) := by
  unfold Thumbnailer.aspect
  by_cases hc : mw * t.height < mh * t.width
  · rw [if_pos hc]
    refine ⟨le_refl mw, ?_, Or.inl rfl⟩
    show Int.fdiv (mw * t.height) t.width ≤ mh
    rw [Int.fdiv_eq_ediv _ (le_of_lt hw), ← Int.lt_add_one_iff,
      Int.ediv_lt_iff_lt_mul hw]
    nlinarith
  · rw [if_neg hc]
    push_neg at hc
    refine ⟨?_, le_refl mh, Or.inr rfl⟩
    show Int.fdiv (mh * t.width) t.height ≤ mw
    rw [Int.fdiv_eq_ediv _ (le_of_lt hh)]
    calc (mh * t.width) / t.height ≤ (mw * t.height) / t.height :=
          Int.ediv_le_ediv hh hc
      _ = mw := Int.mul_ediv_cancel mw (ne_of_gt hh)

/-- Witness for C1: the 640×480 source fit into a 200×200 box. -/
theorem aspect_fits_witness :
    (thumb640.aspect 200 200).1 ≤ 200 ∧ (thumb640.aspect 200 200).2 ≤ 200 ∧
      ((thumb640.aspect 200 200).1 = 200 ∨ (thumb640.aspect 200 200).2 = 200) :=
  aspect_fits thumb640 200 200 (by decide) (by decide) (by decide) (by decide)

/-- C2: `aspect` returns `(max_width, (max_width * height) // width)` exactly
when `max_width * height < max_height * width`, and
`((max_height * width) // height, max_height)` otherwise; equality in the
comparison takes the height-constrained branch. -/
theorem aspect_decision_rule (t : Thumbnailer) (mw mh : Int)
    (hmw : 0 < mw) (hmh : 0 < mh) (hw : 0 < t.width) (hh : 0 < t.height) :
    (mw * t.height < mh * t.width →
      t.aspect mw mh = (mw, Int.fdiv (mw * t.height) t.width)) ∧
    (mh * t.width ≤ mw * t.height →
      t.aspect mw mh = (Int.fdiv (mh * t.width) t.height, mh)) := by
  constructor
  · intro hc
    unfold Thumbnailer.aspect
    rw [if_pos hc]
  · intro hc
    unfold Thumbnailer.aspect
    rw [if_neg (not_lt.mpr hc)]

/-- Witness for C2: the 640×480 source is width-constrained in a 200×200
box. -/
theorem aspect_decision_rule_witness :
    thumb640.aspect 200 200 = (200, Int.fdiv (200 * thumb640.height) thumb640.width) :=
  (aspect_decision_rule thumb640 200 200 (by decide) (by decide) (by decide)
    (by decide)).1 (by decide)
/-- C3: for every source with positive width and height and every positive
target `(w, h)`, `crop(w, h, fmt)` with a supported `fmt` produces a raster
of exactly `(w, h)`; the scaling branch is chosen by `cropGeometry` (which
compares `w * height` with `h * width`), the crop window lies inside the
scaled raster, and the excess on the cropped axis is centred by floor
division, so any off-by-one excess is trimmed from the bottom/right (the
leading trim never exceeds the trailing trim). -/
theorem crop_exact_dims (t : Thumbnailer) (w h : Int) (fmt : String)
    (hw : 0 < t.width) (hh : 0 < t.height) (htw : 0 < w) (hth : 0 < h)
    (hfmt : fmt = "image/jpeg" ∨ fmt = "image/png") :
    (∃ enc : EncodedImage, t.crop w h fmt = .ok enc ∧
        enc.width = w ∧ enc.height = h) ∧
    t.crop w h fmt =
      encode_image
        (cropImage
          (resizeImage t.image (cropGeometry t.width t.height w h).scaledWidth
            (cropGeometry t.width t.height w h).scaledHeight)
          (cropGeometry t.width t.height w h).left
          (cropGeometry t.width t.height w h).top
          (cropGeometry t.width t.height w h).right
          (cropGeometry t.width t.height w h).bottom) fmt ∧
    (cropGeometry t.width t.height w h).right -
        (cropGeometry t.width t.height w h).left = w ∧
    (cropGeometry t.width t.height w h).bottom -
        (cropGeometry t.width t.height w h).top = h ∧
    0 ≤ (cropGeometry t.width t.height w h).left ∧
    0 ≤ (cropGeometry t.width t.height w h).top ∧
    (cropGeometry t.width t.height w h).right ≤
        (cropGeometry t.width t.height w h).scaledWidth ∧
    (cropGeometry t.width t.height w h).bottom ≤
        (cropGeometry t.width t.height w h).scaledHeight ∧
    (cropGeometry t.width t.height w h).left ≤
        (cropGeometry t.width t.height w h).scaledWidth -
          (cropGeometry t.width t.height w h).right ∧
    (cropGeometry t.width t.height w h).top ≤
        (cropGeometry t.width t.height w h).scaledHeight -
          (cropGeometry t.width t.height w h).bottom := by
  have hok : ∃ f : String, FORMATS_subscript fmt = .ok f := by
    rcases hfmt with rfl | rfl
    · exact ⟨"JPEG", rfl⟩
    · exact ⟨"PNG", rfl⟩
  obtain ⟨f, hf⟩ := hok
  refine ⟨⟨_, crop_ok t w h f fmt hf, rfl, rfl⟩, crop_eq_plan t w h fmt, ?_⟩
  by_cases hbr : w * t.height > h * t.width
  · rw [cropGeometry_pos t.width t.height w h hbr]
    have hsh : h ≤ Int.fdiv (w * t.height) t.width := by
      rw [Int.fdiv_eq_ediv _ (le_of_lt hw), Int.le_ediv_iff_mul_le hw]
      exact le_of_lt hbr
    simp only []
    rw [Int.fdiv_eq_ediv (Int.fdiv (w * t.height) t.width - h) (by norm_num)]
    refine ⟨by ring, by ring, le_refl 0, ?_, le_refl w, ?_, by simp, ?_⟩ <;> omega
  · rw [cropGeometry_neg t.width t.height w h hbr]
    push_neg at hbr
    have hsw : w ≤ Int.fdiv (h * t.width) t.height := by
      rw [Int.fdiv_eq_ediv _ (le_of_lt hh), Int.le_ediv_iff_mul_le hh]
      exact hbr
    simp only []
    rw [Int.fdiv_eq_ediv (Int.fdiv (h * t.width) t.height - w) (by norm_num)]
    refine ⟨by ring, by ring, ?_, le_refl 0, ?_, le_refl h, ?_, by simp⟩ <;> omega

/-- Witness for C3: the 640×480 source cropped to 100×100 as PNG. -/
theorem crop_exact_dims_witness :
    ∃ enc : EncodedImage, thumb640.crop 100 100 "image/png" = .ok enc ∧
      enc.width = 100 ∧ enc.height = 100 :=
  (crop_exact_dims thumb640 100 100 "image/png" (by decide) (by decide)
    (by decide) (by decide) (Or.inr rfl)).1

/-- C4: calling `transpose()` twice in succession returns the same
`(width, height)` on the second call as the first, and the second call
performs no further change to the state (raster included): the pending
transform is applied at most once. -/
theorem transpose_applied_at_most_once (t : Thumbnailer) :
    (t.transpose.2.transpose).1 = t.transpose.1 ∧
      (t.transpose.2.transpose).2 = t.transpose.2 := by
  cases ht : t.transpose_method <;>
    simp [Thumbnailer.transpose, ht]

/-- C5: construction never fails on EXIF errors: `Thumbnailer.init` is a
total function, and when `_getexif()` raises, the instance is exactly the
no-transform state over the unchanged raster (as if untagged). -/
theorem init_swallows_exif_error (img : PILImage) (e : String)
    (he : img.getexifResult = .error e) :
    Thumbnailer.init img =
      { image := img, width := img.width, height := img.height,
        transpose_method := none } := by
  simp [Thumbnailer.init, he]

/-- Witness for C5: a source whose EXIF parsing raises. -/
theorem init_swallows_exif_error_witness :
    Thumbnailer.init imgBadExif =
      { image := imgBadExif, width := imgBadExif.width,
        height := imgBadExif.height, transpose_method := none } :=
  init_swallows_exif_error imgBadExif "corrupt EXIF" rfl

/-- C6: for every output type outside `{image/jpeg, image/png}`, `scale` and
`crop` fail with the unsupported-format (`KeyError`) error carrying the
requested type, and no `EncodedImage` is produced. -/
theorem unsupported_format_rejected (t : Thumbnailer) (w h : Int)
    (output_type : String)
    (h1 : output_type ≠ "image/jpeg") (h2 : output_type ≠ "image/png") :
    t.scale w h output_type = .error output_type ∧
      t.crop w h output_type = .error output_type := by
  have hf : FORMATS_subscript output_type = .error output_type := by
    simp [FORMATS_subscript, h1, h2]
  refine ⟨?_, ?_⟩
  · simp [Thumbnailer.scale, encode_image, hf]
  · unfold Thumbnailer.crop
    split <;> simp [encode_image, hf]

/-- Witness for C6: `scale(100, 100, "image/gif")` and
`crop(100, 100, "image/gif")` both fail. -/
theorem unsupported_format_rejected_witness :
    thumb640.scale 100 100 "image/gif" = .error "image/gif" ∧
      thumb640.crop 100 100 "image/gif" = .error "image/gif" :=
  unsupported_format_rejected thumb640 100 100 "image/gif" (by decide) (by decide)

/-- C7 counterexample: on the 640×480 source, `aspect(200, 200)` does not
return `(266, 200)` (it returns `(200, 150)`, and the width-constrained
check `200*480 < 200*640` is true, not false). -/
theorem aspect_example_counterexample :
    thumb640.aspect 200 200 ≠ (266, 200) := by decide

/-- C7 (amended): on the 640×480 source, `aspect(200, 200)` takes the
width-constrained branch because `200*480 < 200*640` is true, and returns
`(200, (200*480)//640) = (200, 150)`. -/
theorem aspect_example_640x480 :
    (200 * thumb640.height < 200 * thumb640.width) ∧
      thumb640.aspect 200 200 = (200, Int.fdiv (200 * 480) 640) ∧
      thumb640.aspect 200 200 = (200, 150) := by decide

/-- C8: a source of `(100, 50)` carrying EXIF orientation tag 6 resolves to
the ROTATE_270 transform, and `transpose()` returns the swapped size
`(50, 100)`. -/
theorem tag6_transpose_swaps :
    (Thumbnailer.init img100x50tag6).transpose_method =
        some TransposeMethod.rotate270 ∧
      (Thumbnailer.init img100x50tag6).transpose.1 = (50, 100) := by decide

/-- C9: `aspect` can return a zero component even for a positive source and
positive box: on the 640×480 source, `aspect(1, 1000) = (1, 0)`. -/
theorem aspect_zero_component :
    thumb640.aspect 1 1000 = (1, 0) ∧
      ¬ 0 < (thumb640.aspect 1 1000).2 := by decide

/-- C10: `aspect` never clamps to the source size: for every source with
positive dimensions, `aspect(2*width, 2*height)` returns exactly
`(2*width, 2*height)` — fit mode upscales sources smaller than the box. -/
theorem aspect_upscales_double (t : Thumbnailer)
    (hw : 0 < t.width) (hh : 0 < t.height) :
    t.aspect (2 * t.width) (2 * t.height) = (2 * t.width, 2 * t.height) := by
  unfold Thumbnailer.aspect
  have heq : 2 * t.width * t.height = 2 * t.height * t.width := by ring
  rw [if_neg (by rw [heq]; exact lt_irrefl _)]
  have hdiv : Int.fdiv (2 * t.height * t.width) t.height = 2 * t.width := by
    rw [← heq]
    exact Int.mul_fdiv_cancel (2 * t.width) (ne_of_gt hh)
  rw [hdiv]

/-- Witness for C10: the 640×480 source in a 1280×960 box. -/
theorem aspect_upscales_double_witness :
    thumb640.aspect (2 * thumb640.width) (2 * thumb640.height) =
      (2 * thumb640.width, 2 * thumb640.height) :=
  aspect_upscales_double thumb640 (by decide) (by decide)
